import Mathlib

/-
Verification of the kafka learning demo scripts: config.py, producer.py,
consumer.py and diagnose_kafka.py, shallowly embedded in Lean.
-/

/-- JSON values as produced by the Python json module: None, bool, numbers
(kept as their source lexeme, since only the type tag matters here), strings,
lists and dicts (as ordered key-value lists). -/
inductive Json where
  | null
  | bool (b : Bool)
  | num (lexeme : String)
  | str (s : String)
  | arr (elems : List Json)
  | obj (members : List (String × Json))

/-- True exactly when the JSON value is an object (a Python dict, the only
json.loads result that supports the .get method). -/
def Json.isObj : Json → Bool
  | Json.obj _ => true
  | _ => false

/-- Whitespace accepted between JSON tokens by json.loads. -/
def isJsonWs (c : Char) : Bool :=
  c = ' ' || c = '\t' || c = '\n' || c = '\r'

/-- Drops leading JSON whitespace. -/
def skipWs : List Char → List Char
  | [] => []
  | c :: cs => if isJsonWs c then skipWs cs else c :: cs

/-- Consumes an expected literal character sequence. -/
def dropLit : List Char → List Char → Option (List Char)
  | [], cs => some cs
  | _ :: _, [] => none
  | l :: ls, c :: cs => if c = l then dropLit ls cs else none

/-- Value of one hexadecimal digit. -/
def hexVal (c : Char) : Option Nat :=
  if '0' ≤ c ∧ c ≤ '9' then some (c.toNat - 48)
  else if 'a' ≤ c ∧ c ≤ 'f' then some (c.toNat - 87)
  else if 'A' ≤ c ∧ c ≤ 'F' then some (c.toNat - 55)
  else none

/-- Reads four hexadecimal digits, as in a JSON \uXXXX escape. -/
def hex4Val : List Char → Option (Nat × List Char)
  | c1 :: c2 :: c3 :: c4 :: rest =>
    match hexVal c1, hexVal c2, hexVal c3, hexVal c4 with
    | some a, some b, some c, some d => some (a * 4096 + b * 256 + c * 16 + d, rest)
    | _, _, _, _ => none
  | _ => none

/-- Decodes one JSON string escape sequence (after the backslash). Surrogate
pairs in \u escapes are combined; a lone surrogate is rejected here (Lean
strings cannot hold lone surrogates, unlike Python str — no claim depends on
that corner). -/
def parseEscape : List Char → Option (Char × List Char)
  | [] => none
  | c :: cs =>
    if c = '"' then some ('"', cs)
    else if c = '\\' then some ('\\', cs)
    else if c = '/' then some ('/', cs)
    else if c = 'b' then some (Char.ofNat 8, cs)
    else if c = 'f' then some (Char.ofNat 12, cs)
    else if c = 'n' then some ('\n', cs)
    else if c = 'r' then some ('\r', cs)
    else if c = 't' then some ('\t', cs)
    else if c = 'u' then
      match hex4Val cs with
      | none => none
      | some (n, rest) =>
        if n < 55296 ∨ 57343 < n then some (Char.ofNat n, rest)
        else if n ≤ 56319 then
          match rest with
          | '\\' :: 'u' :: rest2 =>
            match hex4Val rest2 with
            | some (m, rest3) =>
              if 56320 ≤ m ∧ m ≤ 57343 then
                some (Char.ofNat (65536 + (n - 55296) * 1024 + (m - 56320)), rest3)
              else none
            | none => none
          | _ => none
        else none
    else none

/-- Parses the body of a JSON string (after the opening quote), strict mode:
raw control characters below 0x20 are rejected, as json.loads does. -/
def parseStrChars : Nat → List Char → Option (List Char × List Char)
  | 0, _ => none
  | _ + 1, [] => none
  | fuel + 1, c :: cs =>
    if c = '"' then some ([], cs)
    else if c = '\\' then
      match parseEscape cs with
      | none => none
      | some (ch, rest) =>
        match parseStrChars fuel rest with
        | none => none
        | some (s, r) => some (ch :: s, r)
    else if c.toNat < 32 then none
    else
      match parseStrChars fuel cs with
      | none => none
      | some (s, r) => some (c :: s, r)

/-- Longest leading run of decimal digits. -/
def spanDigits : List Char → List Char × List Char
  | [] => ([], [])
  | c :: cs =>
    if c.isDigit then
      let p := spanDigits cs
      (c :: p.1, p.2)
    else ([], c :: cs)

/-- Integer part of a JSON number: 0, or a nonzero digit followed by digits
(leading zeros rejected, as json.loads does). -/
def parseIntPart : List Char → Option (List Char × List Char)
  | [] => none
  | c :: cs =>
    if c = '0' then some ([c], cs)
    else if c.isDigit then
      let p := spanDigits cs
      some (c :: p.1, p.2)
    else none

/-- Optional fraction part of a JSON number. -/
def parseFracPart (cs : List Char) : Option (List Char × List Char) :=
  match cs with
  | '.' :: rest =>
    match spanDigits rest with
    | ([], _) => none
    | (ds, r) => some ('.' :: ds, r)
  | _ => some ([], cs)

/-- Optional exponent part of a JSON number. -/
def parseExpPart : List Char → Option (List Char × List Char)
  | [] => some ([], [])
  | c :: rest =>
    if c = 'e' ∨ c = 'E' then
      let p : List Char × List Char :=
        match rest with
        | s :: r2 => if s = '+' ∨ s = '-' then ([s], r2) else ([], rest)
        | [] => ([], rest)
      match spanDigits p.2 with
      | ([], _) => none
      | (ds, r) => some (c :: (p.1 ++ ds), r)
    else some ([], c :: rest)

/-- Parses a JSON number, returning its lexeme. -/
def parseNumber (cs : List Char) : Option (String × List Char) :=
  let p : List Char × List Char :=
    match cs with
    | '-' :: r => (['-'], r)
    | _ => ([], cs)
  match parseIntPart p.2 with
  | none => none
  | some (ip, cs2) =>
    match parseFracPart cs2 with
    | none => none
    | some (fp, cs3) =>
      match parseExpPart cs3 with
      | none => none
      | some (ep, cs4) => some (String.mk (p.1 ++ ip ++ fp ++ ep), cs4)

/-- Parses a quoted object key. -/
def parseKey (cs0 : List Char) : Option (String × List Char) :=
  match skipWs cs0 with
  | [] => none
  | c :: rest =>
    if c = '"' then
      match parseStrChars (rest.length + 1) rest with
      | some (s, r) => some (String.mk s, r)
      | none => none
    else none

/-- Consumes the colon separating an object key from its value. -/
def expectColon (cs0 : List Char) : Option (List Char) :=
  match skipWs cs0 with
  | [] => none
  | c :: rest => if c = ':' then some rest else none

/-- Residual parsing task for the fuelled recursive-descent JSON parser:
a value, the tail of an array, or the tail of an object (accumulators hold
the members parsed so far, in reverse). -/
inductive PTask where
  | value
  | arrTail (acc : List Json)
  | objTail (acc : List (String × Json))

/-- Fuelled recursive-descent parser mirroring json.loads, including the
Python extensions NaN, Infinity and -Infinity. -/
def parseCore : Nat → PTask → List Char → Option (Json × List Char)
  | 0, _, _ => none
  | fuel + 1, PTask.value, cs0 =>
    match skipWs cs0 with
    | [] => none
    | c :: rest =>
      if c = 'n' then
        match dropLit ['u', 'l', 'l'] rest with
        | some r => some (Json.null, r)
        | none => none
      else if c = 't' then
        match dropLit ['r', 'u', 'e'] rest with
        | some r => some (Json.bool true, r)
        | none => none
      else if c = 'f' then
        match dropLit ['a', 'l', 's', 'e'] rest with
        | some r => some (Json.bool false, r)
        | none => none
      else if c = 'N' then
        match dropLit ['a', 'N'] rest with
        | some r => some (Json.num "NaN", r)
        | none => none
      else if c = 'I' then
        match dropLit ['n', 'f', 'i', 'n', 'i', 't', 'y'] rest with
        | some r => some (Json.num "Infinity", r)
        | none => none
      else if c = '-' then
        match rest with
        | 'I' :: _ =>
          match dropLit ['I', 'n', 'f', 'i', 'n', 'i', 't', 'y'] rest with
          | some r => some (Json.num "-Infinity", r)
          | none => none
        | _ =>
          match parseNumber (c :: rest) with
          | some (lex, r) => some (Json.num lex, r)
          | none => none
      else if c = '"' then
        match parseStrChars (rest.length + 1) rest with
        | some (s, r) => some (Json.str (String.mk s), r)
        | none => none
      else if c = '[' then
        match skipWs rest with
        | ']' :: r => some (Json.arr [], r)
        | cs2 =>
          match parseCore fuel PTask.value cs2 with
          | some (v, r) => parseCore fuel (PTask.arrTail [v]) r
          | none => none
      else if c = Char.ofNat 123 then
        match skipWs rest with
        | c2 :: r2 =>
          if c2 = Char.ofNat 125 then some (Json.obj [], r2)
          else
            match parseKey (c2 :: r2) with
            | some (k, r3) =>
              match expectColon r3 with
              | some r4 =>
                match parseCore fuel PTask.value r4 with
                | some (v, r5) => parseCore fuel (PTask.objTail [(k, v)]) r5
                | none => none
              | none => none
            | none => none
        | [] => none
      else if c.isDigit then
        match parseNumber (c :: rest) with
        | some (lex, r) => some (Json.num lex, r)
        | none => none
      else none
  | fuel + 1, PTask.arrTail acc, cs0 =>
    match skipWs cs0 with
    | ']' :: r => some (Json.arr acc.reverse, r)
    | ',' :: r =>
      match parseCore fuel PTask.value r with
      | some (v, r2) => parseCore fuel (PTask.arrTail (v :: acc)) r2
      | none => none
    | _ => none
  | fuel + 1, PTask.objTail acc, cs0 =>
    match skipWs cs0 with
    | [] => none
    | c :: r =>
      if c = Char.ofNat 125 then some (Json.obj acc.reverse, r)
      else if c = ',' then
        match parseKey r with
        | some (k, r2) =>
          match expectColon r2 with
          | some r3 =>
            match parseCore fuel PTask.value r3 with
            | some (v, r4) => parseCore fuel (PTask.objTail ((k, v) :: acc)) r4
            | none => none
          | none => none
        | none => none
      else none

/-- Model of json.loads: parse one JSON value and require only whitespace
after it; any violation is a JSONDecodeError, modelled as none. -/
def jsonParse (s : String) : Option Json :=
  match parseCore (2 * s.length + 4) PTask.value s.data with
  | some (v, rest) => if (skipWs rest).isEmpty then some v else none
  | none => none

/-- Model of the Python dict get method on a decoded JSON object: with
duplicate keys the later binding wins, as when json.loads builds the dict. -/
def pyDictGet : List (String × Json) → String → Option Json
  | [], _ => none
  | (k2, v) :: rest, k =>
    match pyDictGet rest k with
    | some v2 => some v2
    | none => if k2 = k then some v else none

/-- True when a byte is a UTF-8 continuation byte. -/
def isCont (b : Nat) : Bool := decide (128 ≤ b ∧ b ≤ 191)

/-- Payload bits carried by a UTF-8 continuation byte. -/
def contVal (b : Nat) : Nat := b - 128

/-- Strict UTF-8 decoding of a byte list, mirroring the Python bytes.decode
method with the utf-8 codec: overlong encodings, surrogates and stray bytes
are rejected (a UnicodeDecodeError in Python, modelled as none). -/
def utf8DecodeList : List Nat → Option (List Char)
  | [] => some []
  | b1 :: rest =>
    if b1 ≤ 127 then
      match utf8DecodeList rest with
      | some cs => some (Char.ofNat b1 :: cs)
      | none => none
    else if 194 ≤ b1 ∧ b1 ≤ 223 then
      match rest with
      | b2 :: rest2 =>
        if isCont b2 then
          match utf8DecodeList rest2 with
          | some cs => some (Char.ofNat ((b1 - 192) * 64 + contVal b2) :: cs)
          | none => none
        else none
      | [] => none
    else if 224 ≤ b1 ∧ b1 ≤ 239 then
      match rest with
      | b2 :: b3 :: rest2 =>
        let lo2 := if b1 = 224 then 160 else 128
        let hi2 := if b1 = 237 then 159 else 191
        if (decide (lo2 ≤ b2) && decide (b2 ≤ hi2)) && isCont b3 then
          match utf8DecodeList rest2 with
          | some cs =>
            some (Char.ofNat ((b1 - 224) * 4096 + contVal b2 * 64 + contVal b3) :: cs)
          | none => none
        else none
      | _ => none
    else if 240 ≤ b1 ∧ b1 ≤ 244 then
      match rest with
      | b2 :: b3 :: b4 :: rest2 =>
        let lo2 := if b1 = 240 then 144 else 128
        let hi2 := if b1 = 244 then 143 else 191
        if ((decide (lo2 ≤ b2) && decide (b2 ≤ hi2)) && isCont b3) && isCont b4 then
          match utf8DecodeList rest2 with
          | some cs =>
            some (Char.ofNat
              ((b1 - 240) * 262144 + contVal b2 * 4096 + contVal b3 * 64 + contVal b4) :: cs)
          | none => none
        else none
      | _ => none
    else none

/-- Model of msg.value().decode with the utf-8 codec. -/
def pyUtf8Decode (bs : List Nat) : Option String :=
  (utf8DecodeList bs).map String.mk

/-
config.py
-/

/-- Values stored in the configuration dicts of config.py. -/
inductive ConfigVal where
  | str (s : String)
  | bool (b : Bool)
  | int (n : Int)
deriving DecidableEq

/-- Process environment read by config.py via os.getenv: each variable is
absent (none) or present with a string value (possibly empty). -/
structure Env where
  KAFKA_ENV : Option String
  MSK_BOOTSTRAP_SERVERS : Option String
  AWS_REGION : Option String
deriving DecidableEq

/-- Model of os.getenv with a default: the default is used only when the
variable is absent, not when it is set to the empty string. -/
def getenv (v : Option String) (d : String) : String := v.getD d

/-- The module-level ENVIRONMENT value of config.py. -/
def ENVIRONMENT (e : Env) : String := getenv e.KAFKA_ENV "local"

/-- The LOCAL_CONFIG dict of config.py, as an ordered key-value list. -/
def LOCAL_CONFIG : List (String × ConfigVal) :=
  [("bootstrap.servers", ConfigVal.str "localhost:9092"),
   ("security.protocol", ConfigVal.str "PLAINTEXT"),
   ("auto.offset.reset", ConfigVal.str "earliest"),
   ("api.version.request", ConfigVal.bool true),
   ("api.version.fallback.ms", ConfigVal.int 0),
   ("broker.version.fallback", ConfigVal.str "0.10.0.0")]

/-- The AWS_CONFIG dict of config.py: bootstrap.servers and sasl.aws.region
come from environment variables with defaults. -/
def AWS_CONFIG (e : Env) : List (String × ConfigVal) :=
  [("bootstrap.servers",
      ConfigVal.str (getenv e.MSK_BOOTSTRAP_SERVERS "your-msk-cluster-endpoint:9092")),
   ("security.protocol", ConfigVal.str "SASL_SSL"),
   ("sasl.mechanism", ConfigVal.str "AWS_MSK_IAM"),
   ("sasl.aws.region", ConfigVal.str (getenv e.AWS_REGION "us-east-1")),
   ("auto.offset.reset", ConfigVal.str "earliest")]

/-- Lowercasing of one character as the Python str.lower method does on the
ASCII range (the environment tags compared here are ASCII). -/
def pyCharLower (c : Char) : Char :=
  if 'A' ≤ c ∧ c ≤ 'Z' then Char.ofNat (c.toNat + 32) else c

/-- Model of the Python str.lower method. -/
def pyLower (s : String) : String := String.mk (s.data.map pyCharLower)

/-- Model of get_kafka_config: the AWS profile is chosen exactly when the
lowercased environment tag is the string aws, otherwise the local profile. -/
def get_kafka_config (e : Env) : List (String × ConfigVal) :=
  if pyLower (ENVIRONMENT e) = "aws" then AWS_CONFIG e else LOCAL_CONFIG

/-- Model of get_environment: returns the raw environment tag. -/
def get_environment (e : Env) : String := ENVIRONMENT e

/-- Key lookup in a configuration dict (keys in these dicts are distinct, so
first match suffices). -/
def cfgGet : List (String × ConfigVal) → String → Option ConfigVal
  | [], _ => none
  | (k2, v) :: rest, k => if k2 = k then some v else cfgGet rest k

/-
producer.py
-/

/-- Behavior of the underlying confluent_kafka transport during one request:
whether the produce call raises, whether the flush call raises, the error (if
any) handed to the delivery callback, and whether flush returned with the
message still undelivered. -/
structure TransportWorld where
  produceExn : Option String
  flushExn : Option String
  deliveryErr : Option String
  flushTimedOut : Bool
deriving DecidableEq

/-- JSON body and status of one HTTP response from producer.py. -/
structure HttpResponse where
  status : Nat
  success : Bool
  error : Option String
  note : Option String
  topic : Option String
  data : Option (List (String × Json))

/-- Observable outcome of one call to the produce endpoint: the HTTP
response, how many times the transport produce operation was invoked, and the
serialized payload handed to it (if any). -/
structure ProduceOutcome where
  response : HttpResponse
  produceCalls : Nat
  sentValue : Option String

/-- Python truthiness test used by the parameter validation (a query
parameter is falsy when absent or the empty string). -/
def pyFalsy : Option String → Bool
  | none => true
  | some s => s = ""

/-- The message_data dict built by produce_message, in insertion order. -/
def message_data (msg ts envName : String) : List (String × Json) :=
  [("message", Json.str msg), ("timestamp", Json.str ts),
   ("environment", Json.str envName)]

/-- Hexadecimal digit character, lowercase, as json.dumps emits. -/
def hexDigitChar (n : Nat) : Char :=
  if n < 10 then Char.ofNat (48 + n) else Char.ofNat (87 + n)

/-- Four lowercase hexadecimal digits. -/
def hex4 (n : Nat) : String :=
  String.mk [hexDigitChar (n / 4096 % 16), hexDigitChar (n / 256 % 16),
             hexDigitChar (n / 16 % 16), hexDigitChar (n % 16)]

/-- Escaping of one character inside a JSON string as json.dumps does with
its default ensure_ascii mode: quote, backslash and the short control escapes
get a backslash form, every other character below 0x20 or above 0x7e becomes
a \u escape (a surrogate pair above 0xffff). -/
def escapeJsonChar (c : Char) : String :=
  if c = '"' then "\\\""
  else if c = '\\' then "\\\\"
  else if c = '\n' then "\\n"
  else if c = '\t' then "\\t"
  else if c = '\r' then "\\r"
  else if c = Char.ofNat 8 then "\\b"
  else if c = Char.ofNat 12 then "\\f"
  else if c.toNat < 32 ∨ 126 < c.toNat then
    if c.toNat < 65536 then "\\u" ++ hex4 c.toNat
    else
      "\\u" ++ hex4 (55296 + (c.toNat - 65536) / 1024) ++
      "\\u" ++ hex4 (56320 + (c.toNat - 65536) % 1024)
  else String.singleton c

/-- Serialization of one JSON string with quotes. -/
def dumpsStr (s : String) : String :=
  "\"" ++ String.join (s.data.map escapeJsonChar) ++ "\""

/-- Model of json.dumps applied to the three-key message_data dict the
producer builds (default separators, insertion order preserved). -/
def dumpsEnvelope (msg ts envName : String) : String :=
  "\x7b\"message\": " ++ dumpsStr msg ++ ", \"timestamp\": " ++ dumpsStr ts ++
  ", \"environment\": " ++ dumpsStr envName ++ "\x7d"

/-- Model of the produce_message request handler of producer.py. Validation
failures return 400 before any transport call. An exception from the produce
or flush call is caught by the handler and mapped to 500. The delivery
callback only logs the error it receives, and the flush return value is
discarded, so neither influences the branch taken: when no exception is
raised the handler returns 200 with success true. -/
def produce_message (topic msg : Option String) (ts : String) (e : Env)
    (w : TransportWorld) : ProduceOutcome :=
  if pyFalsy topic then
    { response := { status := 400, success := false,
                    error := some "Topic parameter is required",
                    note := none, topic := none, data := none },
      produceCalls := 0, sentValue := none }
  else if pyFalsy msg then
    { response := { status := 400, success := false,
                    error := some "Message parameter is required",
                    note := none, topic := none, data := none },
      produceCalls := 0, sentValue := none }
  else
    let md := message_data (msg.getD "") ts (get_environment e)
    let mj := dumpsEnvelope (msg.getD "") ts (get_environment e)
    match w.produceExn with
    | some ex =>
      { response := { status := 500, success := false,
                      error := some ("Failed to produce message: " ++ ex),
                      note := none, topic := none, data := none },
        produceCalls := 1, sentValue := none }
    | none =>
      match w.flushExn with
      | some ex =>
        { response := { status := 500, success := false,
                        error := some ("Failed to produce message: " ++ ex),
                        note := none, topic := none, data := none },
          produceCalls := 1, sentValue := some mj }
      | none =>
        { response := { status := 200, success := true, error := none,
                        note := some "Message produced successfully",
                        topic := topic, data := some md },
          produceCalls := 1, sentValue := some mj }

/-
consumer.py
-/

/-- Python exceptions that can escape the per-message processing block of
consume_messages: a failed utf-8 decode, or calling .get on a json.loads
result that is not a dict. Only json.JSONDecodeError is caught there. -/
inductive PyExn where
  | unicodeDecodeError
  | attributeError
deriving DecidableEq

/-- What the consumer prints for one record: the structured rendering (the
three envelope fields looked up with .get, none printed as N/A) or the raw
text fallback. -/
inductive Rendered where
  | structured (timestamp environment message : Option Json)
  | raw (text : String)

/-- Model of the per-message processing block of consume_messages: decode the
payload as utf-8, try json.loads; a parse failure is caught and falls back to
the raw text; a decode failure or a non-dict parse result raises out of the
block, since only JSONDecodeError is caught. -/
def renderMessage (payload : List Nat) : Except PyExn Rendered :=
  match pyUtf8Decode payload with
  | none => Except.error PyExn.unicodeDecodeError
  | some text =>
    match jsonParse text with
    | some (Json.obj kvs) =>
      Except.ok (Rendered.structured (pyDictGet kvs "timestamp")
        (pyDictGet kvs "environment") (pyDictGet kvs "message"))
    | some _ => Except.error PyExn.attributeError
    | none => Except.ok (Rendered.raw text)

/-- One consumer.poll outcome: timeout with nothing, the partition-end
marker, some other transport error, or a record with payload bytes. -/
inductive PollResult where
  | noRecord
  | partitionEof
  | kafkaErr (msg : String)
  | record (payload : List Nat)

/-- How a run of the otherwise infinite loop concludes once the scheduled
poll outcomes are exhausted: the operator interrupt arrives during the next
idle poll wait, or just after a record arrives, mid-emit (the message counter
has already been incremented at that point). -/
inductive LoopEnd where
  | interruptDuringPoll
  | interruptDuringEmit (payload : List Nat)

/-- How control leaves the while loop: the KeyboardInterrupt caught by the
except clause around the loop, or an unhandled exception propagating out. -/
inductive LoopExit where
  | interrupted
  | faulted (e : PyExn)

/-- The message consumption loop of consume_messages: empty polls, partition
end markers and per-poll transport errors are logged and skipped; a record
increments the counter and is rendered; an exception from rendering aborts
the loop. -/
def consumerLoop : List PollResult → Nat → LoopEnd → Nat × LoopExit
  | [], n, LoopEnd.interruptDuringPoll => (n, LoopExit.interrupted)
  | [], n, LoopEnd.interruptDuringEmit _ => (n + 1, LoopExit.interrupted)
  | PollResult.noRecord :: rest, n, fin => consumerLoop rest n fin
  | PollResult.partitionEof :: rest, n, fin => consumerLoop rest n fin
  | PollResult.kafkaErr _ :: rest, n, fin => consumerLoop rest n fin
  | PollResult.record p :: rest, n, fin =>
    match renderMessage p with
    | Except.ok _ => consumerLoop rest (n + 1) fin
    | Except.error e => (n + 1, LoopExit.faulted e)

/-- Observable outcome of one consume_messages run: the final message count,
how many times consumer.close() ran, and the process exit status requested
(some 1 when the outer except handler called sys.exit(1)). -/
structure ConsumerTrace where
  finalCount : Nat
  closeCount : Nat
  exitCode : Option Nat

/-- Model of consume_messages around the loop: a caught KeyboardInterrupt
prints the summary and returns normally; any other exception reaches the
outer except clause, which logs and calls sys.exit(1). The finally clause
runs on both paths and closes the consumer exactly once. -/
def consume_messages (polls : List PollResult) (fin : LoopEnd) : ConsumerTrace :=
  match consumerLoop polls 0 fin with
  | (n, LoopExit.interrupted) => { finalCount := n, closeCount := 1, exitCode := none }
  | (n, LoopExit.faulted _) => { finalCount := n, closeCount := 1, exitCode := some 1 }

/-
diagnose_kafka.py
-/

/-- One named configuration variant from the configs_to_test list. -/
structure NamedConfig where
  name : String
  config : List (String × ConfigVal)
deriving DecidableEq

/-- The three PLAINTEXT configuration variants always present in
configs_to_test, with host localhost and port 9092 interpolated. -/
def base_configs : List NamedConfig :=
  [{ name := "PLAINTEXT (current)",
     config := [("bootstrap.servers", ConfigVal.str "localhost:9092"),
                ("security.protocol", ConfigVal.str "PLAINTEXT"),
                ("api.version.request", ConfigVal.bool true),
                ("api.version.fallback.ms", ConfigVal.int 0),
                ("broker.version.fallback", ConfigVal.str "0.10.0.0")] },
   { name := "PLAINTEXT (no API version request)",
     config := [("bootstrap.servers", ConfigVal.str "localhost:9092"),
                ("security.protocol", ConfigVal.str "PLAINTEXT"),
                ("api.version.request", ConfigVal.bool false)] },
   { name := "PLAINTEXT (with timeout)",
     config := [("bootstrap.servers", ConfigVal.str "localhost:9092"),
                ("security.protocol", ConfigVal.str "PLAINTEXT"),
                ("api.version.request", ConfigVal.bool true),
                ("api.version.fallback.ms", ConfigVal.int 0),
                ("broker.version.fallback", ConfigVal.str "0.10.0.0"),
                ("socket.timeout.ms", ConfigVal.int 10000),
                ("metadata.request.timeout.ms", ConfigVal.int 10000)] }]

/-- The SSL variant appended to configs_to_test only when the SSL probe
succeeded. -/
def ssl_config : NamedConfig :=
  { name := "SSL",
    config := [("bootstrap.servers", ConfigVal.str "localhost:9092"),
               ("security.protocol", ConfigVal.str "SSL"),
               ("api.version.request", ConfigVal.bool true),
               ("api.version.fallback.ms", ConfigVal.int 0),
               ("broker.version.fallback", ConfigVal.str "0.10.0.0")] }

/-- The configs_to_test list of the diagnostic main function. -/
def configs_to_test (ssl_available : Bool) : List NamedConfig :=
  base_configs ++ (if ssl_available then [ssl_config] else [])

/-- Outcome of the list_topics metadata request one test_kafka_config
attempt makes: the visible topic names, or a raised exception. -/
inductive ProbeOutcome where
  | ok (topics : List String)
  | exn (msg : String)

/-- Model of the producer.close() call test_kafka_config makes after a
successful metadata request, still inside its try block: the confluent_kafka
Producer class has no close method (only the Consumer does), so this
attribute access always raises AttributeError. -/
def producerClose : Except PyExn Unit := Except.error PyExn.attributeError

/-- Model of test_kafka_config: the whole attempt sits in a try block, so any
exception is caught inside this call, printed as a failure and reported as
False, never propagating to the caller. On a failed list_topics request the
raised exception takes that path directly. On a successful request the
function prints the topic summary and then calls producer.close(), still
inside the try: that call always raises, so the return True after it is
unreachable and even a succeeding variant is reported as False. -/
def test_kafka_config (outcome : ProbeOutcome) : Bool :=
  match outcome with
  | ProbeOutcome.exn _ => false
  | ProbeOutcome.ok _ =>
    match producerClose with
    | Except.ok _ => true
    | Except.error _ => false

/-- Environment of one diagnostic run: whether the raw TCP probe and the SSL
probe succeed, and the metadata-request outcome for each configuration
variant, keyed by variant name. -/
structure DiagWorld where
  tcpOk : Bool
  sslOk : Bool
  outcome : String → ProbeOutcome

/-- The step-3 for loop of the diagnostic main function: every variant in
the list is attempted in order, and the successful ones are collected. The
pair returned is (number of attempts made, names of successful variants in
order). -/
def runStep3 : List NamedConfig → (String → ProbeOutcome) → Nat × List String
  | [], _ => (0, [])
  | c :: rest, out =>
    let ok := test_kafka_config (out c.name)
    let r := runStep3 rest out
    (r.1 + 1, if ok then c.name :: r.2 else r.2)

/-- Report of one diagnostic run: whether TCP was reachable, whether the SSL
probe was run and what it found, how many step-3 variant attempts were made,
which variants succeeded, and whether the run aborted early. -/
structure DiagReport where
  tcpReached : Bool
  sslProbed : Bool
  sslAvailable : Bool
  step3Attempts : Nat
  successfulConfigs : List String
  aborted : Bool

/-- Model of the diagnostic main function: a failed TCP probe returns at
once, before the SSL probe and before any configuration variant is tried;
otherwise the SSL probe runs, it only decides whether the SSL variant is
appended to the list, and every listed variant is attempted. -/
def diagnose_main (w : DiagWorld) : DiagReport :=
  if w.tcpOk = false then
    { tcpReached := false, sslProbed := false, sslAvailable := false,
      step3Attempts := 0, successfulConfigs := [], aborted := true }
  else
    let r := runStep3 (configs_to_test w.sslOk) w.outcome
    { tcpReached := true, sslProbed := true, sslAvailable := w.sslOk,
      step3Attempts := r.1, successfulConfigs := r.2, aborted := false }

/-
Shared concrete inputs for witnesses and counterexamples.
-/

/-- Process environment with no variables set: the defaults of config.py. -/
def envDflt : Env :=
  { KAFKA_ENV := none, MSK_BOOTSTRAP_SERVERS := none, AWS_REGION := none }

/-- Transport that raises nothing and delivers the message. -/
def quietWorld : TransportWorld :=
  { produceExn := none, flushExn := none, deliveryErr := none, flushTimedOut := false }

/-- Transport where the delivery callback is handed an error and the flush
deadline passes without the message leaving the queue, but no exception is
raised into the handler. -/
def c1FailWorld : TransportWorld :=
  { produceExn := none, flushExn := none,
    deliveryErr := some "Message timed out", flushTimedOut := true }

/-- C1: the claim says a delivery failure reported via the callback, or an
expired flush timeout, yields HTTP 500 with success false. The code does not
do this: delivery_callback only logs the error and the flush return value is
discarded, so with valid parameters and no exception the handler returns
HTTP 200 with success true even though the transport reported a delivery
failure and the flush timed out. -/
theorem c1_delivery_failure_still_http_200 :
    c1FailWorld.deliveryErr.isSome = true ∧
    c1FailWorld.flushTimedOut = true ∧
    (produce_message (some "payments") (some "hello") "2026-01-01T00:00:00"
      envDflt c1FailWorld).response.status = 200 ∧
    (produce_message (some "payments") (some "hello") "2026-01-01T00:00:00"
      envDflt c1FailWorld).response.success = true ∧
    (produce_message (some "payments") (some "hello") "2026-01-01T00:00:00"
      envDflt c1FailWorld).produceCalls = 1 :=
  ⟨rfl, rfl, rfl, rfl, rfl⟩

/-- C2 counterexample: the single byte 0xff is not a valid JSON envelope, yet
the render step does not fall back to raw text — it raises (a
UnicodeDecodeError, which the except clause for JSONDecodeError does not
catch) and the loop dies with exit status 1, refuting the claim for
arbitrary byte payloads. -/
theorem c2_counterexample_invalid_utf8 :
    renderMessage [255] = Except.error PyExn.unicodeDecodeError ∧
    (consume_messages [PollResult.record [255]]
      LoopEnd.interruptDuringPoll).exitCode = some 1 :=
  ⟨rfl, rfl⟩

/-- C2 (amended): for every received record whose payload bytes decode as
UTF-8 but do not parse as JSON, the render step does not raise: it renders
the raw text via the fallback path, increments the running message counter
exactly once, and the loop continues polling. -/
theorem c2_utf8_nonjson_renders_raw (payload : List Nat) (s : String)
    (hdec : pyUtf8Decode payload = some s)
    (hparse : jsonParse s = none) :
    renderMessage payload = Except.ok (Rendered.raw s) ∧
    ∀ rest n fin,
      consumerLoop (PollResult.record payload :: rest) n fin =
        consumerLoop rest (n + 1) fin := by
  have h1 : renderMessage payload = Except.ok (Rendered.raw s) := by
    simp [renderMessage, hdec, hparse]
  exact ⟨h1, fun rest n fin => by simp [consumerLoop, h1]⟩

/-- The UTF-8 bytes of the string plain text. -/
def plainTextBytes : List Nat := [112, 108, 97, 105, 110, 32, 116, 101, 120, 116]

/-- C2 witness: the raw string plain text is rendered as raw text and counted
once, after which the loop reaches the interrupt as usual. -/
theorem c2_witness :
    renderMessage plainTextBytes = Except.ok (Rendered.raw "plain text") ∧
    consumerLoop [PollResult.record plainTextBytes] 0 LoopEnd.interruptDuringPoll =
      (1, LoopExit.interrupted) := by
  have h := c2_utf8_nonjson_renders_raw plainTextBytes "plain text" rfl rfl
  exact ⟨h.1, (h.2 [] 0 LoopEnd.interruptDuringPoll).trans rfl⟩

/-- C3 counterexample: with the aws tag and the broker-address override set
to the empty string, os.getenv returns that empty string (the default only
covers an absent variable), so the resolved profile carries an empty
bootstrap.servers value, refuting the claim for every override setting. -/
theorem c3_counterexample_empty_override :
    cfgGet (get_kafka_config
        { KAFKA_ENV := some "aws", MSK_BOOTSTRAP_SERVERS := some "",
          AWS_REGION := none })
      "bootstrap.servers" = some (ConfigVal.str "") :=
  rfl

/-- C3 (amended): for every environment tag, provided the broker-address
override is absent or non-empty, the resolved profile has a non-empty
bootstrap.servers string. -/
theorem c3_bootstrap_nonempty (e : Env)
    (h : ∀ s, e.MSK_BOOTSTRAP_SERVERS = some s → s ≠ "") :
    ∃ v, cfgGet (get_kafka_config e) "bootstrap.servers" =
        some (ConfigVal.str v) ∧ v ≠ "" := by
  unfold get_kafka_config
  by_cases hc : pyLower (ENVIRONMENT e) = "aws"
  · rw [if_pos hc]
    refine ⟨getenv e.MSK_BOOTSTRAP_SERVERS "your-msk-cluster-endpoint:9092", rfl, ?_⟩
    cases hm : e.MSK_BOOTSTRAP_SERVERS with
    | none => decide
    | some s => exact h s hm
  · rw [if_neg hc]
    exact ⟨"localhost:9092", rfl, by decide⟩

/-- C3 witness: with no overrides set, the resolved profile has the
non-empty default broker address. -/
theorem c3_witness :
    ∃ v, cfgGet (get_kafka_config envDflt) "bootstrap.servers" =
        some (ConfigVal.str v) ∧ v ≠ "" :=
  c3_bootstrap_nonempty envDflt (fun _ hs => nomatch hs)

/-- The AWS profile differs from the local profile for every override
setting: they disagree at the security.protocol key. -/
theorem aws_config_ne_local (e : Env) : AWS_CONFIG e ≠ LOCAL_CONFIG := by
  intro h
  have h2 : cfgGet (AWS_CONFIG e) "security.protocol" =
      cfgGet LOCAL_CONFIG "security.protocol" := by rw [h]
  have h3 : cfgGet (AWS_CONFIG e) "security.protocol" =
      some (ConfigVal.str "SASL_SSL") := rfl
  have h4 : cfgGet LOCAL_CONFIG "security.protocol" =
      some (ConfigVal.str "PLAINTEXT") := rfl
  rw [h3, h4] at h2
  exact absurd h2 (by decide)

/-- C4: the resolver selects the cloud profile exactly when the lowercased
environment tag is aws, every other tag yields the local profile, and an
absent selector defaults to local; resolution is a total function with no
failure mode. -/
theorem c4_cloud_profile_selection (e : Env) :
    (get_kafka_config e = AWS_CONFIG e ↔ pyLower (ENVIRONMENT e) = "aws") ∧
    (get_kafka_config e = LOCAL_CONFIG ↔ pyLower (ENVIRONMENT e) ≠ "aws") ∧
    (e.KAFKA_ENV = none → get_kafka_config e = LOCAL_CONFIG) := by
  by_cases hc : pyLower (ENVIRONMENT e) = "aws"
  · have hget : get_kafka_config e = AWS_CONFIG e := by
      unfold get_kafka_config; rw [if_pos hc]
    refine ⟨⟨fun _ => hc, fun _ => hget⟩,
      ⟨fun hl => absurd (hget.symm.trans hl) (aws_config_ne_local e),
       fun hn => absurd hc hn⟩,
      fun h0 => ?_⟩
    exfalso
    have henv : ENVIRONMENT e = "local" := by
      unfold ENVIRONMENT getenv; rw [h0]; rfl
    rw [henv] at hc
    exact absurd hc (by decide)
  · have hget : get_kafka_config e = LOCAL_CONFIG := by
      unfold get_kafka_config; rw [if_neg hc]
    exact ⟨⟨fun ha => absurd (ha.symm.trans hget) (aws_config_ne_local e),
      fun h => absurd h hc⟩, ⟨fun _ => hc, fun _ => hget⟩, fun _ => hget⟩

/-- Environment with the uppercase tag AWS. -/
def envAwsUpper : Env :=
  { KAFKA_ENV := some "AWS", MSK_BOOTSTRAP_SERVERS := none, AWS_REGION := none }

/-- Environment with the mixed-case tag Aws. -/
def envAwsMixed : Env :=
  { KAFKA_ENV := some "Aws", MSK_BOOTSTRAP_SERVERS := none, AWS_REGION := none }

/-- C4 witness: AWS and Aws select the cloud profile; an absent selector
yields the local profile. -/
theorem c4_witness :
    get_kafka_config envAwsUpper = AWS_CONFIG envAwsUpper ∧
    get_kafka_config envAwsMixed = AWS_CONFIG envAwsMixed ∧
    get_kafka_config envDflt = LOCAL_CONFIG :=
  ⟨(c4_cloud_profile_selection envAwsUpper).1.mpr (by decide),
   (c4_cloud_profile_selection envAwsMixed).1.mpr (by decide),
   (c4_cloud_profile_selection envDflt).2.2 rfl⟩

/-- C5: a missing or empty topic or msg parameter yields HTTP 400 with
success false and an error message, and the transport produce operation is
invoked zero times. -/
theorem c5_missing_params_rejected (topic msg : Option String) (ts : String)
    (e : Env) (w : TransportWorld)
    (h : pyFalsy topic = true ∨ pyFalsy msg = true) :
    (produce_message topic msg ts e w).response.status = 400 ∧
    (produce_message topic msg ts e w).response.success = false ∧
    (produce_message topic msg ts e w).response.error.isSome = true ∧
    (produce_message topic msg ts e w).produceCalls = 0 := by
  by_cases ht : pyFalsy topic = true
  · simp [produce_message, ht]
  · have hm : pyFalsy msg = true := h.resolve_left ht
    simp [produce_message, ht, hm]

/-- C5 witness: a request with no topic parameter is rejected with 400 and
no transport call. -/
theorem c5_witness :
    (produce_message none (some "hello") "t0" envDflt quietWorld).response.status = 400 ∧
    (produce_message none (some "hello") "t0" envDflt quietWorld).response.success = false ∧
    (produce_message none (some "hello") "t0" envDflt quietWorld).response.error.isSome = true ∧
    (produce_message none (some "hello") "t0" envDflt quietWorld).produceCalls = 0 :=
  c5_missing_params_rejected none (some "hello") "t0" envDflt quietWorld (Or.inl rfl)

/-- C6: every successful result of the produce endpoint echoes the input
topic, its envelope carries the resolver environment as its environment
field, the envelope dict has exactly the keys message, timestamp and
environment in that order with message bound to the input msg, and the
serialized envelope handed to the transport is exactly the dump of that
dict. -/
theorem c6_success_echoes_inputs (t m ts : String) (e : Env) (w : TransportWorld)
    (ht : t ≠ "") (hm : m ≠ "")
    (hs : (produce_message (some t) (some m) ts e w).response.success = true) :
    (produce_message (some t) (some m) ts e w).response.topic = some t ∧
    (produce_message (some t) (some m) ts e w).response.data =
      some (message_data m ts (get_environment e)) ∧
    (produce_message (some t) (some m) ts e w).sentValue =
      some (dumpsEnvelope m ts (get_environment e)) ∧
    (message_data m ts (get_environment e)).map Prod.fst =
      ["message", "timestamp", "environment"] ∧
    pyDictGet (message_data m ts (get_environment e)) "message" =
      some (Json.str m) ∧
    pyDictGet (message_data m ts (get_environment e)) "environment" =
      some (Json.str (get_environment e)) := by
  have hft : pyFalsy (some t) = false := by simp [pyFalsy, ht]
  have hfm : pyFalsy (some m) = false := by simp [pyFalsy, hm]
  cases hp : w.produceExn with
  | some ex => exact absurd hs (by simp [produce_message, hft, hfm, hp])
  | none =>
    cases hf : w.flushExn with
    | some ex => exact absurd hs (by simp [produce_message, hft, hfm, hp, hf])
    | none =>
      refine ⟨?_, ?_, ?_, rfl, rfl, rfl⟩ <;>
        simp [produce_message, hft, hfm, hp, hf]

/-- C6 witness: a concrete successful produce call echoes its topic and
envelope. -/
theorem c6_witness :
    (produce_message (some "payments") (some "hello") "t0" envDflt
      quietWorld).response.topic = some "payments" ∧
    (produce_message (some "payments") (some "hello") "t0" envDflt
      quietWorld).response.data =
      some (message_data "hello" "t0" (get_environment envDflt)) ∧
    (produce_message (some "payments") (some "hello") "t0" envDflt
      quietWorld).sentValue =
      some (dumpsEnvelope "hello" "t0" (get_environment envDflt)) ∧
    (message_data "hello" "t0" (get_environment envDflt)).map Prod.fst =
      ["message", "timestamp", "environment"] ∧
    pyDictGet (message_data "hello" "t0" (get_environment envDflt)) "message" =
      some (Json.str "hello") ∧
    pyDictGet (message_data "hello" "t0" (get_environment envDflt)) "environment" =
      some (Json.str (get_environment envDflt)) :=
  c6_success_echoes_inputs "payments" "hello" "t0" envDflt quietWorld
    (by decide) (by decide) rfl

/-- C7: when the raw TCP probe fails, the diagnostic aborts at once: the SSL
probe is not run and zero step-3 configuration-variant attempts are made. -/
theorem c7_tcp_failure_short_circuits (w : DiagWorld) (h : w.tcpOk = false) :
    (diagnose_main w).sslProbed = false ∧
    (diagnose_main w).step3Attempts = 0 ∧
    (diagnose_main w).aborted = true := by
  simp [diagnose_main, h]

/-- Diagnostic run against an unreachable broker. -/
def diagWorldDown : DiagWorld :=
  { tcpOk := false
    sslOk := false
    outcome := fun _ => ProbeOutcome.exn "unreachable" }

/-- C7 witness: a concrete run with an unreachable broker makes no SSL probe
and no variant attempts. -/
theorem c7_witness :
    (diagnose_main diagWorldDown).sslProbed = false ∧
    (diagnose_main diagWorldDown).step3Attempts = 0 ∧
    (diagnose_main diagWorldDown).aborted = true :=
  c7_tcp_failure_short_circuits diagWorldDown rfl

/-- The step-3 loop makes exactly one attempt per listed variant, whatever
the outcomes are. -/
theorem runStep3_attempts (cfgs : List NamedConfig) (out : String → ProbeOutcome) :
    (runStep3 cfgs out).1 = cfgs.length := by
  induction cfgs with
  | nil => rfl
  | cons c rest ih => simp [runStep3, ih]

/-- Diagnostic run where only the second PLAINTEXT variant gets a
successful metadata response from the broker. -/
def diagWorldB : DiagWorld :=
  { tcpOk := true, sslOk := false,
    outcome := fun n =>
      if n = "PLAINTEXT (no API version request)" then ProbeOutcome.ok ["payments"]
      else ProbeOutcome.exn "Connection refused" }

/-- C8: the claim says each succeeding variant is recorded in the final
report even when a preceding variant failed. The code cannot do this: after
a successful metadata request test_kafka_config calls producer.close()
inside the same try block, that call always raises AttributeError, and the
per-attempt except clause then reports the variant as failed. In a run
where the second variant returns topic metadata and the others fail, all
three variants are still attempted — one failure never aborts the rest —
yet the succeeding variant is reported as failed and the list of successful
configurations stays empty. -/
theorem c8_succeeding_variant_never_recorded :
    (diagnose_main diagWorldB).step3Attempts = 3 ∧
    diagWorldB.outcome "PLAINTEXT (no API version request)" =
      ProbeOutcome.ok ["payments"] ∧
    test_kafka_config
      (diagWorldB.outcome "PLAINTEXT (no API version request)") = false ∧
    (diagnose_main diagWorldB).successfulConfigs = [] :=
  ⟨rfl, rfl, rfl, rfl⟩

/-- C9: on every exit path of the consumer loop — interrupt during an idle
poll wait, interrupt mid-emit, or an unhandled fault raised while processing
a record — the finally clause releases the consumer exactly once. -/
theorem c9_close_exactly_once (polls : List PollResult) (fin : LoopEnd) :
    (consume_messages polls fin).closeCount = 1 := by
  cases hcl : consumerLoop polls 0 fin with
  | mk n ex => cases ex <;> simp [consume_messages, hcl]

/-- C10: a payload whose bytes decode as UTF-8 to valid JSON that is not an
object escapes the render step as an uncaught AttributeError (only JSON
parse failure is caught), so the loop terminates through the outer fault
handler: the process exits with status 1 and the consumer is still closed by
the unconditional cleanup, the counter having been incremented for the fatal
record. -/
theorem c10_nonobject_json_crashes (payload : List Nat) (s : String) (j : Json)
    (hdec : pyUtf8Decode payload = some s)
    (hparse : jsonParse s = some j)
    (hobj : j.isObj = false) :
    renderMessage payload = Except.error PyExn.attributeError ∧
    ∀ fin,
      (consume_messages [PollResult.record payload] fin).exitCode = some 1 ∧
      (consume_messages [PollResult.record payload] fin).closeCount = 1 ∧
      (consume_messages [PollResult.record payload] fin).finalCount = 1 := by
  have h1 : renderMessage payload = Except.error PyExn.attributeError := by
    cases j with
    | obj kvs => simp [Json.isObj] at hobj
    | null => simp [renderMessage, hdec, hparse]
    | bool b => simp [renderMessage, hdec, hparse]
    | num l => simp [renderMessage, hdec, hparse]
    | str s2 => simp [renderMessage, hdec, hparse]
    | arr xs => simp [renderMessage, hdec, hparse]
  refine ⟨h1, fun fin => ?_⟩
  refine ⟨?_, ?_, ?_⟩ <;> simp [consume_messages, consumerLoop, h1]

/-- C10 witness: the payload 5 (the single byte 0x35) parses as a JSON
number, the render step raises, the process exit status is 1 and the
consumer is closed once. -/
theorem c10_witness :
    renderMessage [53] = Except.error PyExn.attributeError ∧
    (consume_messages [PollResult.record [53]]
      LoopEnd.interruptDuringPoll).exitCode = some 1 ∧
    (consume_messages [PollResult.record [53]]
      LoopEnd.interruptDuringPoll).closeCount = 1 := by
  have h := c10_nonobject_json_crashes [53] "5" (Json.num "5") rfl rfl rfl
  exact ⟨h.1, (h.2 LoopEnd.interruptDuringPoll).1, (h.2 LoopEnd.interruptDuringPoll).2.1⟩
